import Mathlib

/-!
Verification development for the agent1 repository.

The definitions below are a shallow embedding of the MCP client manager
(src/agent/mcp_client.py) and of the agent's tool dispatcher
(src/agent/agent.py).  Python dictionaries are modelled as association
lists that preserve insertion order (as Python dicts do); external
effects (file existence, process spawning, the provider's responses,
JSON parsing of the model-produced argument string) are modelled as
explicit oracle parameters, so every function here is a pure, executable
Lean function whose control flow mirrors the Python source line by line.
-/

namespace Agent1

/-- JSON-like values, the payloads moved around by the MCP layer
(tool parameter schemas, parsed tool arguments).  Numbers are modelled
as integers; nothing in the verified code computes with them. -/
inductive Json where
  | null : Json
  | bool (b : Bool) : Json
  | num (n : Int) : Json
  | str (s : String) : Json
  | arr (xs : List Json) : Json
  | obj (kvs : List (String × Json)) : Json

/-- Python truthiness of a JSON value (`bool(x)`): empty containers,
empty strings, zero and `None` are falsy. -/
def Json.truthy : Json → Bool
  | .null => false
  | .bool b => b
  | .num n => n != 0
  | .str s => s != ""
  | .arr xs => !xs.isEmpty
  | .obj kvs => !kvs.isEmpty

/-- Python truthiness of an optional string (used for the
`if command: ... elif python_path: ...` chain in `add_server`):
`None` and the empty string are falsy. -/
def pyStrOptTruthy : Option String → Bool
  | none => false
  | some s => s != ""

/-- Does the character list `hay` start with `pat`? -/
def matchesAt : List Char → List Char → Bool
  | [], _ => true
  | _ :: _, [] => false
  | a :: as, b :: bs => a == b && matchesAt as bs

/-- Does `pat` occur as a contiguous sublist of `hay`?  Models the
Python `pat in hay` substring test. -/
def listHasSub (pat : List Char) : List Char → Bool
  | [] => matchesAt pat []
  | c :: cs => matchesAt pat (c :: cs) || listHasSub pat cs

/-- Python `pat in hay` on strings. -/
def hasSubStr (hay pat : String) : Bool :=
  listHasSub pat.toList hay.toList

/-- Python `s.lower()` (ASCII is all the source ever compares). -/
def strLower (s : String) : String :=
  String.map Char.toLower s

/-! ### Ordered dictionaries as association lists -/

/-- `d[k] = v` on a Python dict: replaces the value in place if the key
is present (keeping its position), otherwise appends at the end. -/
def upsert (k : String) (v : α) : List (String × α) → List (String × α)
  | [] => [(k, v)]
  | (k', v') :: rest =>
    if k' = k then (k, v) :: rest else (k', v') :: upsert k v rest

/-- `del d[k]` on a Python dict: removes the key. -/
def eraseKey (k : String) : List (String × α) → List (String × α)
  | [] => []
  | (k', v') :: rest =>
    if k' = k then eraseKey k rest else (k', v') :: eraseKey k rest

/-- `k in d` on a Python dict. -/
def hasKey (k : String) (l : List (String × α)) : Bool :=
  (List.lookup k l).isSome

/-- Well-formedness of a modelled dict: keys are pairwise distinct
(always true of a real Python dict). -/
def wfKeys (l : List (String × α)) : Prop :=
  List.Nodup (l.map Prod.fst)

/-! ### MCPClientManager state (src/agent/mcp_client.py, lines 30-36) -/

/-- The per-server configuration record stored by
`MCPClientManager.add_server` (mcp_client.py lines 63-69):
`{'path': ..., 'args': ..., 'env': ..., 'command': ..., 'connected': ...}`. -/
structure ServerConfig where
  path : String
  args : List String
  env : List (String × String)
  command : String
  connected : Bool
deriving DecidableEq

/-- The mutable state of `MCPClientManager` (mcp_client.py lines 33-36):
the `servers` config dict, the `sessions` dict and the `stdio_contexts`
dict.  Live session and stdio-context objects are modelled by opaque
numeric handles. -/
structure ManagerState where
  servers : List (String × ServerConfig)
  sessions : List (String × Nat)
  stdio_contexts : List (String × Nat)
deriving DecidableEq

/-- `MCPClientManager.__init__`: all three dicts start empty. -/
def emptyState : ManagerState := ⟨[], [], []⟩

/-- The interpreter path `sys.executable`, an environment constant. -/
def sysExecutable : String := "sys.executable"

/-- The command-selection chain of `add_server` (mcp_client.py lines
55-61): `command` if truthy, else `python_path` if truthy, else
`sys.executable`. -/
def pickExec (python_path command : Option String) : String :=
  if pyStrOptTruthy command then command.getD sysExecutable
  else if pyStrOptTruthy python_path then python_path.getD sysExecutable
  else sysExecutable

/-- `MCPClientManager.add_server` (mcp_client.py lines 38-69).
`mcpAvailable` models the module-level `MCP_AVAILABLE` flag: when it is
false the method logs and returns without storing anything.  Otherwise
the configuration is stored unconditionally under `name`, with
`connected` reset to `False`. -/
def add_server (mcpAvailable : Bool) (st : ManagerState) (name server_path : String)
    (args : List String) (env : List (String × String))
    (python_path command : Option String) : ManagerState :=
  if !mcpAvailable then st
  else
    { st with
      servers := upsert name
        { path := server_path
          args := args
          env := env
          command := pickExec python_path command
          connected := false } st.servers }

/-! ### connect_server (mcp_client.py lines 71-135) -/

/-- Outcome of the spawn-and-handshake block (mcp_client.py lines
97-129): either every step succeeds, yielding the new session and stdio
context handles, or some step raises. -/
inductive SpawnOutcome where
  | ok (session stdio : Nat) : SpawnOutcome
  | fail (msg : String) : SpawnOutcome
deriving DecidableEq

/-- What `connect_server` returns and does: the boolean result, the
manager state afterwards, and whether the provider process spawn was
attempted (the body of the `try` block at lines 97-129 was entered). -/
structure ConnectResult where
  ok : Bool
  state : ManagerState
  spawned : Bool
deriving DecidableEq

/-- Update the `connected` flag of the entry for `name` (the Python
`self.servers[name]['connected'] = b`). -/
def setConnected : List (String × ServerConfig) → String → Bool →
    List (String × ServerConfig)
  | [], _, _ => []
  | (k, cfg) :: rest, name, b =>
    if k = name then (k, { cfg with connected := b }) :: setConnected rest name b
    else (k, cfg) :: setConnected rest name b

/-- `MCPClientManager.connect_server` (mcp_client.py lines 71-135).
`fe` models `os.path.exists`; `out` models the outcome of the
spawn/handshake block.  Returns false without touching the state when
MCP is unavailable, the server is not configured, or the script path
does not exist; on a successful handshake it stores the new session and
stdio context and sets the `connected` flag; on an exception it returns
false leaving the state unchanged (the stores at lines 124-126 happen
only after every awaited step succeeded). -/
def connect_server (mcpAvailable : Bool) (fe : String → Bool) (out : SpawnOutcome)
    (st : ManagerState) (name : String) : ConnectResult :=
  if !mcpAvailable then ⟨false, st, false⟩
  else
    match List.lookup name st.servers with
    | none => ⟨false, st, false⟩
    | some cfg =>
      if !fe cfg.path then ⟨false, st, false⟩
      else
        match out with
        | .ok s c =>
          ⟨true,
            { servers := setConnected st.servers name true
              sessions := upsert name s st.sessions
              stdio_contexts := upsert name c st.stdio_contexts },
            true⟩
        | .fail _ => ⟨false, st, true⟩

/-- Whether the manager currently records `name` as connected
(`self.servers[name]['connected']`, false when unconfigured). -/
def connFlag (st : ManagerState) (name : String) : Bool :=
  match List.lookup name st.servers with
  | some cfg => cfg.connected
  | none => false

/-! ### disconnect_server (mcp_client.py lines 137-175) -/

/-- Outcome of awaiting one `__aexit__` during disconnect:
clean return, an `asyncio.CancelledError`/`RuntimeError` (the pair
caught at lines 148 and 161), or any other exception. -/
inductive CloseOutcome where
  | ok : CloseOutcome
  | cancelLike (msg : String) : CloseOutcome
  | exc (msg : String) : CloseOutcome
deriving DecidableEq

/-- One close attempt in `disconnect_server`: returns whether the dict
entry is deleted (only when `__aexit__` returned cleanly, since the
`del` sits after the `await` in the `try`) and the error strings
appended.  Cancellation-type errors whose lowercased text contains
"cancel scope" are swallowed. -/
def closeStep (out : CloseOutcome) (label : String) : Bool × List String :=
  match out with
  | .ok => (true, [])
  | .cancelLike m =>
    (false, if hasSubStr (strLower m) "cancel scope" then [] else [label ++ m])
  | .exc m => (false, [label ++ m])

/-- `MCPClientManager.disconnect_server` (mcp_client.py lines 137-175).
`sessOut` and `stdioOut` model the outcomes of the two `__aexit__`
awaits.  The function never raises: every exception is caught and at
most logged.  Returns the state afterwards together with the collected
error strings (which are only logged in the source). -/
def disconnect_server (sessOut stdioOut : CloseOutcome) (st : ManagerState)
    (name : String) : ManagerState × List String :=
  let sessPart :=
    match List.lookup name st.sessions with
    | none => (st.sessions, ([] : List String))
    | some _ =>
      match closeStep sessOut "Error closing session: " with
      | (true, es) => (eraseKey name st.sessions, es)
      | (false, es) => (st.sessions, es)
  let stdioPart :=
    match List.lookup name st.stdio_contexts with
    | none => (st.stdio_contexts, ([] : List String))
    | some _ =>
      match closeStep stdioOut "Error closing stdio context: " with
      | (true, es) => (eraseKey name st.stdio_contexts, es)
      | (false, es) => (st.stdio_contexts, es)
  let servers1 :=
    if hasKey name st.servers then setConnected st.servers name false else st.servers
  (⟨servers1, sessPart.fst, stdioPart.fst⟩, sessPart.snd ++ stdioPart.snd)

/-! ### get_server_tools and get_mcp_tools (mcp_client.py lines 177-215, 332-340) -/

/-- A tool descriptor as received from a provider's `list_tools`
response: name, optional description, optional parameter schema
(`None`, or absent, is `none`; an explicitly advertised schema is
`some`). -/
structure MCPTool where
  name : String
  description : Option String
  inputSchema : Option Json

/-- The catalog entry built at mcp_client.py lines 198-208:
`{"type": "function", "function": {"name": ..., "description": ...,
"parameters": ...}}`.  `ttype` models the "type" key. -/
structure OpenAITool where
  ttype : String
  name : String
  description : Option String
  parameters : Json

/-- The default parameter schema substituted at mcp_client.py lines
203-206: `{"type": "object", "properties": {}}`. -/
def defaultSchema : Json :=
  Json.obj [("type", Json.str "object"), ("properties", Json.obj [])]

/-- Python `x or d` on an optional JSON value: `d` when `x` is `None`
or falsy (an empty dict is falsy), `x` otherwise. -/
def pyOr (x : Option Json) (d : Json) : Json :=
  match x with
  | none => d
  | some j => if j.truthy then j else d

/-- The per-tool conversion in the loop at mcp_client.py lines 197-209:
prefix the name with `{server}_`, keep the description, and apply
`tool.inputSchema or defaultSchema`. -/
def convertTool (server : String) (t : MCPTool) : OpenAITool :=
  { ttype := "function"
    name := server ++ "_" ++ t.name
    description := t.description
    parameters := pyOr t.inputSchema defaultSchema }

/-- `MCPClientManager.get_server_tools` (mcp_client.py lines 177-215).
`listResp` models the outcome of `session.list_tools()` per server
(an exception is `.error`); `fe`, `spawn` feed the lazy
`connect_server` call made when no session exists.  Returns the
converted catalog entries together with the state afterwards; a failed
auto-connect or a failed list request degrades to `[]`. -/
def get_server_tools (mcpAvailable : Bool) (fe : String → Bool)
    (spawn : String → SpawnOutcome)
    (listResp : String → Except String (List MCPTool))
    (st : ManagerState) (name : String) : List OpenAITool × ManagerState :=
  let fetch : ManagerState → List OpenAITool × ManagerState := fun st1 =>
    match listResp name with
    | .ok ts => (ts.map (convertTool name), st1)
    | .error _ => ([], st1)
  if hasKey name st.sessions then fetch st
  else
    let r := connect_server mcpAvailable fe (spawn name) st name
    if r.ok then fetch r.state else ([], r.state)

/-- `get_mcp_tools` (mcp_client.py lines 332-340): iterate over the
configured servers in insertion order, concatenating each server's
converted tool list. -/
def get_mcp_tools (mcpAvailable : Bool) (fe : String → Bool)
    (spawn : String → SpawnOutcome)
    (listResp : String → Except String (List MCPTool))
    (st : ManagerState) : List OpenAITool × ManagerState :=
  (st.servers.map Prod.fst).foldl
    (fun acc n =>
      let r := get_server_tools mcpAvailable fe spawn listResp acc.snd n
      (acc.fst ++ r.fst, r.snd))
    ([], st)

/-! ### call_tool (mcp_client.py lines 217-270) -/

/-- One content fragment of a provider's call response: an object with
a `.text` attribute, a plain string, or anything else (skipped by the
extraction loop at lines 241-245). -/
inductive Fragment where
  | textAttr (s : String) : Fragment
  | plain (s : String) : Fragment
  | other : Fragment
deriving DecidableEq

/-- The raw `CallToolResult` returned by `session.call_tool`: its
`content` list of fragments. -/
structure CallResultRaw where
  content : List Fragment
deriving DecidableEq

/-- Outcome of awaiting `session.call_tool` (mcp_client.py line 236):
a response, or a provider-side exception with message `msg`. -/
inductive CallOutcome where
  | ok (r : CallResultRaw) : CallOutcome
  | exc (msg : String) : CallOutcome
deriving DecidableEq

/-- The in-order concatenation loop at mcp_client.py lines 240-245:
fragments with a `.text` attribute contribute their text, plain strings
contribute themselves, anything else is skipped. -/
def extractText : List Fragment → String
  | [] => ""
  | .textAttr s :: rest => s ++ extractText rest
  | .plain s :: rest => s ++ extractText rest
  | .other :: rest => extractText rest

/-- Python `str(result)` on a `CallToolResult` whose content is
`content` (used at mcp_client.py line 255 when the content list is
empty or missing).  Only the shape matters for the proofs: it is the
pydantic field rendering, never the empty string. -/
def pyStr (r : CallResultRaw) : String :=
  "meta=None content=" ++ (if r.content.isEmpty then "[]" else "[...]") ++ " isError=False"

/-- The result dictionary shapes produced by `call_tool`
(mcp_client.py lines 247-270): `{"success": True, "result": text}`
(the `raw_result` key is not modelled), `{"error": msg}`, and the
three-key `{"error": ..., "tool_name": ..., "server_name": ...}` form
built for the `background_tasks` limitation. -/
inductive MCPCallResult where
  | success (result : String) : MCPCallResult
  | error (msg : String) : MCPCallResult
  | errorNamed (msg toolName serverName : String) : MCPCallResult
deriving DecidableEq

/-- The `try`/`except` body of `call_tool` once a session exists
(mcp_client.py lines 234-270): nonempty content is concatenated into a
success result; empty content falls back to `str(result)`; an exception
whose text contains "background_tasks" becomes the actionable named
error; any other exception becomes `{"error": msg}`. -/
def call_tool_outcome (out : CallOutcome) (server_name tool_name : String) : MCPCallResult :=
  match out with
  | .ok r =>
    if !r.content.isEmpty then .success (extractText r.content)
    else .success (pyStr r)
  | .exc m =>
    if hasSubStr m "background_tasks" then
      .errorNamed
        ("Tool " ++ tool_name ++ " requires FastAPI dependencies that are not available via MCP. Please use an alternative tool.")
        tool_name server_name
    else .error m

/-- `MCPClientManager.call_tool` (mcp_client.py lines 217-270)
including the lazy-connect preamble at lines 230-232. -/
def call_tool (mcpAvailable : Bool) (fe : String → Bool) (spawn : String → SpawnOutcome)
    (out : CallOutcome) (st : ManagerState) (server_name tool_name : String) :
    MCPCallResult × ManagerState :=
  if hasKey server_name st.sessions then
    (call_tool_outcome out server_name tool_name, st)
  else
    let r := connect_server mcpAvailable fe (spawn server_name) st server_name
    if r.ok then (call_tool_outcome out server_name tool_name, r.state)
    else (.error ("Could not connect to server " ++ server_name), r.state)

/-! ### execute_mcp_tool (mcp_client.py lines 342-361) -/

/-- Python `function_name.split('_', 1)` combined with the
`'_' in function_name` guard: `none` when the name has no underscore,
otherwise the part before the first underscore and the rest. -/
def splitFirstAux : List Char → Option (List Char × List Char)
  | [] => none
  | c :: cs =>
    if c = '_' then some ([], cs)
    else
      match splitFirstAux cs with
      | none => none
      | some (p, r) => some (c :: p, r)

/-- First-underscore split on a string (mcp_client.py lines 354-359). -/
def splitFirstUnderscore (s : String) : Option (String × String) :=
  match splitFirstAux s.toList with
  | none => none
  | some (p, r) => some (String.mk p, String.mk r)

/-- `execute_mcp_tool` (mcp_client.py lines 342-361), with the effect
of `mcp_manager.call_tool` abstracted into the oracle `callEnv` (its
concrete model is `call_tool` above): names without an underscore are
rejected, otherwise the name is split on the first underscore into
server name and tool name and the call is routed to that server. -/
def execute_mcp_tool (callEnv : String → String → Json → MCPCallResult)
    (function_name : String) (args : Json) : MCPCallResult :=
  match splitFirstUnderscore function_name with
  | none => .error "Invalid MCP function name format"
  | some (server_name, tool_name) => callEnv server_name tool_name args

/-! ### The agent's tool executor (agent.py lines 152-171, 350-416) -/

/-- `json.dumps` of a Python string: quote and escape. -/
def pyJsonQuoteChar (c : Char) : String :=
  if c = '"' then "\\\""
  else if c = '\\' then "\\\\"
  else if c = '\n' then "\\n"
  else String.mk [c]

/-- `json.dumps` of a Python string value. -/
def pyJsonQuote (s : String) : String :=
  "\"" ++ String.join (s.toList.map pyJsonQuoteChar) ++ "\""

/-- The serialized envelopes the executor returns:
`json.dumps({"success": True, "result": payload})` and
`json.dumps({"success": False, "error": payload})`
(agent.py lines 366-368, 373, 376 and their twins in `_execute_tool`). -/
def jsonDumpsEnvelope (success : Bool) (payload : String) : String :=
  if success then
    "\x7b\"success\": true, \"result\": " ++ pyJsonQuote payload ++ "\x7d"
  else
    "\x7b\"success\": false, \"error\": " ++ pyJsonQuote payload ++ "\x7d"

/-- The post-processing of an MCP result shared by both executors
(agent.py lines 365-368 and 405-408): `"error" in result` selects the
failure envelope built from `result["error"]`, otherwise the success
envelope built from `result["result"]`. -/
def wrapMcpResult (r : MCPCallResult) : String :=
  match r with
  | .success s => jsonDumpsEnvelope true s
  | .error m => jsonDumpsEnvelope false m
  | .errorNamed m _ _ => jsonDumpsEnvelope false m

/-- Whether the calling thread has a running asyncio event loop
(`asyncio.get_running_loop()` succeeding vs raising `RuntimeError`). -/
inductive CallerCtx where
  | noLoop : CallerCtx
  | runningLoop : CallerCtx
deriving DecidableEq

/-- `PythonAgent._execute_mcp_tool_sync` (agent.py lines 152-171): in a
thread that already has a running loop it refuses with an error dict;
otherwise it creates a fresh loop and runs `execute_mcp_tool` on it. -/
def executeMcpToolSync (ctx : CallerCtx) (callEnv : String → String → Json → MCPCallResult)
    (function_name : String) (args : Json) : MCPCallResult :=
  match ctx with
  | .runningLoop => .error "Cannot execute MCP tools in async context"
  | .noLoop => execute_mcp_tool callEnv function_name args

/-- Whether `executor.submit(...).result(timeout=10)` (agent.py line
397) obtained the worker's value within the 10-second budget, or raised
`concurrent.futures.TimeoutError` (whose `str` is `msg`, the empty
string in CPython). -/
inductive WorkerOutcome where
  | completed : WorkerOutcome
  | timedOut (msg : String) : WorkerOutcome
deriving DecidableEq

/-- One tool-call request as produced by the model: the function name
and the raw JSON argument string. -/
structure ToolCall where
  name : String
  arguments : String

/-- A local tool table entry (`TOOL_FUNCTIONS` in tools.py): calling
the function with the parsed keyword arguments either returns a string
or raises with a message (a keyword-binding `TypeError` included). -/
def LocalTools : Type := List (String × (Json → Except String String))

/-- `PythonAgent._execute_tool_async` (agent.py lines 350-376).
`jsonLoads` models `json.loads` on the raw argument string; `localTools`
models `TOOL_FUNCTIONS`; `callEnv` models the MCP call effect.  Local
tools are checked by exact name first; otherwise a name containing an
underscore is routed through `execute_mcp_tool` and wrapped; otherwise
the unknown-tool envelope is returned.  Every exception is caught and
serialized, so the function is total and always returns a string. -/
def executeToolAsync (jsonLoads : String → Except String Json)
    (localTools : LocalTools)
    (callEnv : String → String → Json → MCPCallResult)
    (tc : ToolCall) : String :=
  match jsonLoads tc.arguments with
  | .error e => jsonDumpsEnvelope false ("Tool execution failed: " ++ e)
  | .ok args =>
    match List.lookup tc.name localTools with
    | some f =>
      match f args with
      | .ok s => s
      | .error e => jsonDumpsEnvelope false ("Tool execution failed: " ++ e)
    | none =>
      if (splitFirstUnderscore tc.name).isSome then
        wrapMcpResult (execute_mcp_tool callEnv tc.name args)
      else
        jsonDumpsEnvelope false ("Unknown tool: " ++ tc.name)

/-- `PythonAgent._execute_tool` (agent.py lines 378-416), the
synchronous entry point.  With no running loop it creates a loop and
runs `execute_mcp_tool` directly (lines 398-403); with a running loop
it submits `_execute_mcp_tool_sync` to a worker thread — which has no
running loop of its own, hence the `.noLoop` context — and waits with
`timeout=10`; a timeout is caught by the surrounding `except` and
serialized as a failure envelope (lines 392-397, 410-411). -/
def executeToolSync (jsonLoads : String → Except String Json)
    (localTools : LocalTools)
    (callEnv : String → String → Json → MCPCallResult)
    (ctx : CallerCtx) (wo : WorkerOutcome)
    (tc : ToolCall) : String :=
  match jsonLoads tc.arguments with
  | .error e => jsonDumpsEnvelope false ("Tool execution failed: " ++ e)
  | .ok args =>
    match List.lookup tc.name localTools with
    | some f =>
      match f args with
      | .ok s => s
      | .error e => jsonDumpsEnvelope false ("Tool execution failed: " ++ e)
    | none =>
      if (splitFirstUnderscore tc.name).isSome then
        match ctx with
        | .noLoop => wrapMcpResult (execute_mcp_tool callEnv tc.name args)
        | .runningLoop =>
          match wo with
          | .completed => wrapMcpResult (executeMcpToolSync .noLoop callEnv tc.name args)
          | .timedOut m => jsonDumpsEnvelope false ("MCP tool execution failed: " ++ m)
      else
        jsonDumpsEnvelope false ("Unknown tool: " ++ tc.name)

/-! ### Helper lemmas about the dictionary model -/

lemma lookup_upsert (k : String) (v : α) (l : List (String × α)) :
    List.lookup k (upsert k v l) = some v := by
  induction l with
  | nil => simp [upsert, List.lookup_cons]
  | cons kv rest ih =>
    obtain ⟨k', v'⟩ := kv
    by_cases hk : k' = k
    · subst hk
      simp [upsert, List.lookup_cons]
    · simp [upsert, hk, List.lookup_cons, beq_false_of_ne (Ne.symm hk), ih]

lemma upsert_noop (k : String) (v : α) (l : List (String × α))
    (h : List.lookup k l = some v) : upsert k v l = l := by
  induction l with
  | nil => simp [List.lookup] at h
  | cons kv rest ih =>
    obtain ⟨k', v'⟩ := kv
    by_cases hk : k = k'
    · subst hk
      simp [List.lookup_cons] at h
      simp [upsert, h]
    · rw [List.lookup_cons, beq_false_of_ne hk] at h
      simp only [] at h
      have hk2 : ¬k' = k := fun hh => hk (Eq.symm hh)
      simp [upsert, hk2, ih h]

lemma lookup_eraseKey (k : String) (l : List (String × α)) :
    List.lookup k (eraseKey k l) = none := by
  induction l with
  | nil => simp [eraseKey]
  | cons kv rest ih =>
    obtain ⟨k', v'⟩ := kv
    by_cases hk : k' = k
    · subst hk
      simp [eraseKey, ih]
    · simp [eraseKey, hk, List.lookup_cons, beq_false_of_ne (Ne.symm hk), ih]

lemma setConnected_of_not_mem (l : List (String × ServerConfig)) (name : String) (b : Bool)
    (h : List.lookup name l = none) : setConnected l name b = l := by
  induction l with
  | nil => simp [setConnected]
  | cons kv rest ih =>
    obtain ⟨k', v'⟩ := kv
    by_cases hk : k' = name
    · subst hk
      simp [List.lookup_cons] at h
    · rw [List.lookup_cons, beq_false_of_ne (Ne.symm hk)] at h
      simp only [] at h
      simp [setConnected, hk, ih h]

lemma setConnected_noop (l : List (String × ServerConfig)) (name : String) (cfg : ServerConfig)
    (hwf : wfKeys l) (h : List.lookup name l = some cfg) (hc : cfg.connected = false) :
    setConnected l name false = l := by
  induction l with
  | nil => simp [List.lookup] at h
  | cons kv rest ih =>
    obtain ⟨k', v'⟩ := kv
    rw [wfKeys, List.map_cons, List.nodup_cons] at hwf
    by_cases hk : k' = name
    · subst hk
      simp [List.lookup_cons] at h
      subst h
      have hrest : List.lookup k' rest = none := by
        rw [List.lookup_eq_none_iff]
        intro p hp
        simp only [bne_iff_ne, ne_eq]
        intro hke
        apply hwf.1
        exact List.mem_map.mpr ⟨p, hp, hke.symm⟩
      have hr : setConnected rest k' false = rest :=
        setConnected_of_not_mem rest k' false hrest
      obtain ⟨p, a, e, c, conn⟩ := v'
      change conn = false at hc
      subst hc
      simp [setConnected, hr]
    · rw [List.lookup_cons, beq_false_of_ne (Ne.symm hk)] at h
      simp only [] at h
      simp [setConnected, hk, ih hwf.2 h]

lemma lookup_setConnected (l : List (String × ServerConfig)) (name : String) (b : Bool) :
    List.lookup name (setConnected l name b) =
      (List.lookup name l).map (fun cfg => { cfg with connected := b }) := by
  induction l with
  | nil => simp [setConnected]
  | cons kv rest ih =>
    obtain ⟨k', v'⟩ := kv
    by_cases hk : k' = name
    · subst hk
      simp [setConnected, List.lookup_cons]
    · simp [setConnected, hk, List.lookup_cons, beq_false_of_ne (Ne.symm hk), ih]

lemma keys_setConnected (l : List (String × ServerConfig)) (name : String) (b : Bool) :
    (setConnected l name b).map Prod.fst = l.map Prod.fst := by
  induction l with
  | nil => simp [setConnected]
  | cons kv rest ih =>
    obtain ⟨k', v'⟩ := kv
    by_cases hk : k' = name
    · subst hk
      simp [setConnected, ih]
    · simp [setConnected, hk, ih]

/-! ### C5 — registration semantics of add_server -/

/-- C5 counterexample: registering server "a" with command "node" and
then re-registering the same name with command "python" does not fail
(there is no ConfigurationError anywhere in add_server) — it silently
replaces the stored configuration with the new command. -/
theorem c5_counterexample :
    (add_server true (add_server true emptyState "a" "/x.py" [] [] none (some "node"))
        "a" "/x.py" [] [] none (some "python")).servers
      = [("a", { path := "/x.py", args := [], env := [], command := "python", connected := false })]
    ∧ (add_server true (add_server true emptyState "a" "/x.py" [] [] none (some "node"))
        "a" "/x.py" [] [] none (some "python")).servers
      ≠ (add_server true emptyState "a" "/x.py" [] [] none (some "node")).servers := by
  constructor
  · rfl
  · decide

/-- C5 (amended): add_server never fails.  Re-registering a name —
with the same or a different command — unconditionally overwrites the
stored configuration (last-write-wins, with the connected flag reset to
false); when the new configuration is identical to the stored one the
overwrite leaves the state unchanged, so identical re-registration is a
no-op. -/
theorem c5_register_amended (st : ManagerState) (name p : String) (args : List String)
    (env : List (String × String)) (pp cmd : Option String) :
    List.lookup name (add_server true st name p args env pp cmd).servers
      = some { path := p, args := args, env := env, command := pickExec pp cmd, connected := false }
    ∧ (List.lookup name st.servers
        = some { path := p, args := args, env := env, command := pickExec pp cmd, connected := false } →
        add_server true st name p args env pp cmd = st) := by
  constructor
  · simp [add_server, lookup_upsert]
  · intro h
    simp [add_server, upsert_noop _ _ _ h]

/-- C5 witness: the amended statement evaluated on a concrete
registration, including the identical-re-registration no-op. -/
theorem c5_register_amended_witness :
    List.lookup "a" (add_server true emptyState "a" "/x.py" [] [] none (some "node")).servers
      = some { path := "/x.py", args := [], env := [], command := pickExec none (some "node"),
               connected := false }
    ∧ add_server true (add_server true emptyState "a" "/x.py" [] [] none (some "node"))
        "a" "/x.py" [] [] none (some "node")
      = add_server true emptyState "a" "/x.py" [] [] none (some "node") :=
  ⟨(c5_register_amended emptyState "a" "/x.py" [] [] none (some "node")).1,
   (c5_register_amended (add_server true emptyState "a" "/x.py" [] [] none (some "node"))
      "a" "/x.py" [] [] none (some "node")).2 (by rfl)⟩

/-! ### C4 — connect on an already-connected server -/

/-- C4 counterexample: with server "alpha" configured, connected, and
holding session handle 1, a second connect_server call re-enters the
spawn block (spawned = true) and stores the fresh session handle 2 in
place of 1 — the claim's "without respawning the provider process or
replacing the existing session" is false. -/
theorem c4_counterexample :
    (connect_server true (fun _ => true) (SpawnOutcome.ok 2 2)
        ⟨[("alpha", ⟨"/srv/alpha.py", [], [], "python3", true⟩)], [("alpha", 1)], [("alpha", 1)]⟩
        "alpha").ok = true
    ∧ (connect_server true (fun _ => true) (SpawnOutcome.ok 2 2)
        ⟨[("alpha", ⟨"/srv/alpha.py", [], [], "python3", true⟩)], [("alpha", 1)], [("alpha", 1)]⟩
        "alpha").spawned = true
    ∧ List.lookup "alpha"
        (connect_server true (fun _ => true) (SpawnOutcome.ok 2 2)
          ⟨[("alpha", ⟨"/srv/alpha.py", [], [], "python3", true⟩)], [("alpha", 1)], [("alpha", 1)]⟩
          "alpha").state.sessions = some 2 := by
  refine ⟨rfl, rfl, rfl⟩

/-- C4 (amended): connect_server has no already-connected guard.  For
every configured server — connected or not — whose script path exists,
a connect call whose spawn/handshake succeeds re-enters the spawn block
and replaces the stored session with the fresh handle; it returns
success.  Idempotence without respawning holds only at the call sites
(get_server_tools, call_tool) that check for an existing session before
connecting. -/
theorem c4_connect_amended (fe : String → Bool) (st : ManagerState) (name : String)
    (cfg : ServerConfig) (s c : Nat)
    (h1 : List.lookup name st.servers = some cfg)
    (_h2 : cfg.connected = true)
    (h3 : fe cfg.path = true) :
    (connect_server true fe (SpawnOutcome.ok s c) st name).ok = true
    ∧ (connect_server true fe (SpawnOutcome.ok s c) st name).spawned = true
    ∧ List.lookup name (connect_server true fe (SpawnOutcome.ok s c) st name).state.sessions
        = some s := by
  refine ⟨?_, ?_, ?_⟩ <;> simp [connect_server, h1, h3, lookup_upsert]

/-- C4 witness: the amended statement on the concrete connected state. -/
theorem c4_connect_amended_witness :
    (connect_server true (fun _ => true) (SpawnOutcome.ok 7 8)
        ⟨[("alpha", ⟨"/srv/alpha.py", [], [], "python3", true⟩)], [("alpha", 1)], [("alpha", 1)]⟩
        "alpha").ok = true
    ∧ (connect_server true (fun _ => true) (SpawnOutcome.ok 7 8)
        ⟨[("alpha", ⟨"/srv/alpha.py", [], [], "python3", true⟩)], [("alpha", 1)], [("alpha", 1)]⟩
        "alpha").spawned = true
    ∧ List.lookup "alpha"
        (connect_server true (fun _ => true) (SpawnOutcome.ok 7 8)
          ⟨[("alpha", ⟨"/srv/alpha.py", [], [], "python3", true⟩)], [("alpha", 1)], [("alpha", 1)]⟩
          "alpha").state.sessions = some 7 :=
  c4_connect_amended (fun _ => true) _ "alpha" ⟨"/srv/alpha.py", [], [], "python3", true⟩ 7 8
    rfl rfl rfl

/-! ### C8 — connect with a missing script path -/

/-- C8: for a configured server whose script path does not exist,
connect_server returns false without entering the spawn block, the
manager state is left entirely unchanged, and the server's connection
state remains not-connected.  The embedding is a total function, so no
exception can escape. -/
theorem c8_connect_missing_path (fe : String → Bool) (out : SpawnOutcome)
    (st : ManagerState) (name : String) (cfg : ServerConfig)
    (h1 : List.lookup name st.servers = some cfg)
    (h2 : fe cfg.path = false)
    (h3 : connFlag st name = false) :
    connect_server true fe out st name = ⟨false, st, false⟩
    ∧ connFlag (connect_server true fe out st name).state name = false := by
  have hmain : connect_server true fe out st name = ⟨false, st, false⟩ := by
    simp [connect_server, h1, h2]
  exact ⟨hmain, by rw [hmain]; exact h3⟩

/-- C8 witness: a configured, never-connected server "beta" whose path
check fails. -/
theorem c8_connect_missing_path_witness :
    connect_server true (fun _ => false) (SpawnOutcome.fail "unreached")
        ⟨[("beta", ⟨"/missing.py", [], [], "python3", false⟩)], [], []⟩ "beta"
      = ⟨false, ⟨[("beta", ⟨"/missing.py", [], [], "python3", false⟩)], [], []⟩, false⟩
    ∧ connFlag (connect_server true (fun _ => false) (SpawnOutcome.fail "unreached")
        ⟨[("beta", ⟨"/missing.py", [], [], "python3", false⟩)], [], []⟩ "beta").state "beta"
      = false :=
  c8_connect_missing_path (fun _ => false) (SpawnOutcome.fail "unreached") _ "beta"
    ⟨"/missing.py", [], [], "python3", false⟩ rfl rfl rfl

/-! ### C9 — disconnect idempotence -/

lemma disconnect_noop (so1 so2 : CloseOutcome) (st : ManagerState) (name : String)
    (hwf : wfKeys st.servers)
    (h1 : List.lookup name st.sessions = none)
    (h2 : List.lookup name st.stdio_contexts = none)
    (h3 : connFlag st name = false) :
    disconnect_server so1 so2 st name = (st, []) := by
  have hservers : (if hasKey name st.servers then setConnected st.servers name false
      else st.servers) = st.servers := by
    cases hlk : List.lookup name st.servers with
    | none => simp [hasKey, hlk]
    | some cfg =>
      have hc : cfg.connected = false := by
        simpa [connFlag, hlk] using h3
      simp [hasKey, hlk, setConnected_noop st.servers name cfg hwf hlk hc]
  simp [disconnect_server, h1, h2, hservers]

lemma disconnect_clears_sessions (st : ManagerState) (name : String) :
    List.lookup name (disconnect_server CloseOutcome.ok CloseOutcome.ok st name).fst.sessions
      = none := by
  cases h : List.lookup name st.sessions with
  | none => simp [disconnect_server, h]
  | some s => simp [disconnect_server, h, closeStep, lookup_eraseKey]

lemma disconnect_clears_stdio (st : ManagerState) (name : String) :
    List.lookup name (disconnect_server CloseOutcome.ok CloseOutcome.ok st name).fst.stdio_contexts
      = none := by
  cases h : List.lookup name st.stdio_contexts with
  | none => simp [disconnect_server, h]
  | some s => simp [disconnect_server, h, closeStep, lookup_eraseKey]

lemma disconnect_connFlag (so1 so2 : CloseOutcome) (st : ManagerState) (name : String) :
    connFlag (disconnect_server so1 so2 st name).fst name = false := by
  cases hlk : List.lookup name st.servers with
  | none => simp [disconnect_server, hasKey, hlk, connFlag]
  | some cfg => simp [disconnect_server, hasKey, hlk, connFlag, lookup_setConnected]

lemma disconnect_wfKeys (so1 so2 : CloseOutcome) (st : ManagerState) (name : String)
    (hwf : wfKeys st.servers) :
    wfKeys (disconnect_server so1 so2 st name).fst.servers := by
  cases hlk : List.lookup name st.servers with
  | none => simpa [disconnect_server, hasKey, hlk] using hwf
  | some cfg =>
    simp only [disconnect_server, hasKey, hlk, Option.isSome_some, if_true]
    rw [wfKeys, keys_setConnected]
    exact hwf

/-- C9: disconnect_server is a total function (never raises) and is a
no-op on a server that was never connected or is already disconnected:
with no session entry, no stdio-context entry and the connected flag
already false, the state is returned unchanged and no error is
recorded, for every close outcome.  Moreover, after a successful
disconnect (both closes clean), a second disconnect of the same name is
again such a no-op, for every close outcome — disconnect is idempotent. -/
theorem c9_disconnect_idempotent (so1 so2 so3 so4 : CloseOutcome) (st : ManagerState)
    (name : String)
    (hwf : wfKeys st.servers)
    (h1 : List.lookup name st.sessions = none)
    (h2 : List.lookup name st.stdio_contexts = none)
    (h3 : connFlag st name = false) :
    disconnect_server so1 so2 st name = (st, [])
    ∧ (∀ st2 : ManagerState, wfKeys st2.servers →
        disconnect_server so3 so4
            (disconnect_server CloseOutcome.ok CloseOutcome.ok st2 name).fst name
          = ((disconnect_server CloseOutcome.ok CloseOutcome.ok st2 name).fst, [])) :=
  ⟨disconnect_noop so1 so2 st name hwf h1 h2 h3,
   fun st2 hwf2 =>
     disconnect_noop so3 so4 _ name
       (disconnect_wfKeys CloseOutcome.ok CloseOutcome.ok st2 name hwf2)
       (disconnect_clears_sessions st2 name)
       (disconnect_clears_stdio st2 name)
       (disconnect_connFlag CloseOutcome.ok CloseOutcome.ok st2 name)⟩

/-- C9 witness: the statement evaluated on a registered, never-connected
server "gamma", with exception-producing close outcomes. -/
theorem c9_disconnect_idempotent_witness :
    disconnect_server (CloseOutcome.exc "boom") (CloseOutcome.cancelLike "Cancel Scope exited")
        ⟨[("gamma", ⟨"/srv/gamma.py", [], [], "python3", false⟩)], [], []⟩ "gamma"
      = (⟨[("gamma", ⟨"/srv/gamma.py", [], [], "python3", false⟩)], [], []⟩, [])
    ∧ (∀ st2 : ManagerState, wfKeys st2.servers →
        disconnect_server (CloseOutcome.exc "late") (CloseOutcome.exc "late")
            (disconnect_server CloseOutcome.ok CloseOutcome.ok st2 "gamma").fst "gamma"
          = ((disconnect_server CloseOutcome.ok CloseOutcome.ok st2 "gamma").fst, [])) :=
  c9_disconnect_idempotent (CloseOutcome.exc "boom") (CloseOutcome.cancelLike "Cancel Scope exited")
    (CloseOutcome.exc "late") (CloseOutcome.exc "late")
    ⟨[("gamma", ⟨"/srv/gamma.py", [], [], "python3", false⟩)], [], []⟩ "gamma"
    (by simp [wfKeys]) rfl rfl rfl

/-! ### C1 — the registry snapshot -/

/-- The claim's reading of the per-tool conversion: the schema is
preserved unchanged, and only an omitted schema gets the default. -/
def specToolEntryOrig (server : String) (t : MCPTool) : OpenAITool :=
  { ttype := "function"
    name := server ++ "_" ++ t.name
    description := t.description
    parameters :=
      match t.inputSchema with
      | none => defaultSchema
      | some s => s }

/-- The amended reading: an omitted schema or a falsy (e.g. empty
object) schema gets the default, any other schema is preserved. -/
def specToolEntryAmended (server : String) (t : MCPTool) : OpenAITool :=
  { ttype := "function"
    name := server ++ "_" ++ t.name
    description := t.description
    parameters :=
      match t.inputSchema with
      | none => defaultSchema
      | some s => if s.truthy then s else defaultSchema }

lemma convertTool_eq_spec (server : String) (t : MCPTool) :
    convertTool server t = specToolEntryAmended server t := by
  cases hi : t.inputSchema with
  | none => simp [convertTool, specToolEntryAmended, pyOr, hi]
  | some s => simp [convertTool, specToolEntryAmended, pyOr, hi]

/-- C1 counterexample: a provider that advertises the tool "t" with the
explicit (present, not omitted) empty-object schema.  The snapshot
entry does not preserve that schema: Python `tool.inputSchema or
default` treats the empty dict as falsy and substitutes the default
schema, so the claim's "parameter schema preserved unchanged" fails. -/
theorem c1_counterexample :
    (get_server_tools true (fun _ => true) (fun _ => SpawnOutcome.fail "unused")
        (fun _ => Except.ok [⟨"t", some "d", some (Json.obj [])⟩])
        ⟨[("s", ⟨"/srv/s.py", [], [], "python3", true⟩)], [("s", 1)], [("s", 1)]⟩ "s").fst
      = [{ ttype := "function", name := "s_t", description := some "d",
           parameters := defaultSchema }]
    ∧ (get_server_tools true (fun _ => true) (fun _ => SpawnOutcome.fail "unused")
        (fun _ => Except.ok [⟨"t", some "d", some (Json.obj [])⟩])
        ⟨[("s", ⟨"/srv/s.py", [], [], "python3", true⟩)], [("s", 1)], [("s", 1)]⟩ "s").fst
      ≠ [specToolEntryOrig "s" ⟨"t", some "d", some (Json.obj [])⟩] := by
  have hval : (get_server_tools true (fun _ => true) (fun _ => SpawnOutcome.fail "unused")
      (fun _ => Except.ok [⟨"t", some "d", some (Json.obj [])⟩])
      ⟨[("s", ⟨"/srv/s.py", [], [], "python3", true⟩)], [("s", 1)], [("s", 1)]⟩ "s").fst
      = [{ ttype := "function", name := "s_t", description := some "d",
           parameters := defaultSchema }] := rfl
  refine ⟨hval, ?_⟩
  rw [hval]
  intro h
  simp [specToolEntryOrig, defaultSchema] at h

/-- C1 (amended): for every registered server that successfully
advertises its tools `ts` — whether through an already-stored session
or through the lazy auto-connect performed when no session exists —
the freshly computed snapshot contribution of that server is exactly
`ts` converted entry by entry: one entry per tool (length preserved),
named `{server}_{tool}`, with the description preserved unchanged and
the schema preserved unchanged except that an omitted or falsy (empty)
schema becomes the default `{"type": "object", "properties": {}}`. -/
theorem c1_snapshot_amended (mcpA : Bool) (fe : String → Bool)
    (spawn : String → SpawnOutcome)
    (listResp : String → Except String (List MCPTool))
    (st : ManagerState) (name : String) (ts : List MCPTool)
    (hconn : hasKey name st.sessions = true
      ∨ (connect_server mcpA fe (spawn name) st name).ok = true)
    (hresp : listResp name = Except.ok ts) :
    (get_server_tools mcpA fe spawn listResp st name).fst
      = ts.map (specToolEntryAmended name)
    ∧ (get_server_tools mcpA fe spawn listResp st name).fst.length = ts.length := by
  have hfst : (get_server_tools mcpA fe spawn listResp st name).fst
      = ts.map (convertTool name) := by
    by_cases hs : hasKey name st.sessions
    · simp [get_server_tools, hs, hresp]
    · rcases hconn with h | h
      · exact absurd h hs
      · simp [get_server_tools, hs, h, hresp]
  constructor
  · rw [hfst]
    exact List.map_congr_left (fun t _ => convertTool_eq_spec name t)
  · rw [hfst, List.length_map]

/-- C1 witness: a two-tool catalog, one tool with a real schema
(preserved) and one with an omitted schema (defaulted), fetched first
through an already-stored session and then through the lazy
auto-connect path (no session stored, spawn succeeds). -/
theorem c1_snapshot_amended_witness :
    ((get_server_tools true (fun _ => true) (fun _ => SpawnOutcome.fail "unused")
        (fun _ => Except.ok
          [⟨"ping", some "ping tool", some (Json.obj [("type", Json.str "object")])⟩,
           ⟨"pong", none, none⟩])
        ⟨[("alpha", ⟨"/srv/alpha.py", [], [], "python3", true⟩)], [("alpha", 1)], [("alpha", 1)]⟩
        "alpha").fst
      = List.map (specToolEntryAmended "alpha")
          [⟨"ping", some "ping tool", some (Json.obj [("type", Json.str "object")])⟩,
           ⟨"pong", none, none⟩]
    ∧ (get_server_tools true (fun _ => true) (fun _ => SpawnOutcome.fail "unused")
        (fun _ => Except.ok
          [⟨"ping", some "ping tool", some (Json.obj [("type", Json.str "object")])⟩,
           ⟨"pong", none, none⟩])
        ⟨[("alpha", ⟨"/srv/alpha.py", [], [], "python3", true⟩)], [("alpha", 1)], [("alpha", 1)]⟩
        "alpha").fst.length = 2)
    ∧ ((get_server_tools true (fun _ => true) (fun _ => SpawnOutcome.ok 1 2)
        (fun _ => Except.ok
          [⟨"ping", some "ping tool", some (Json.obj [("type", Json.str "object")])⟩,
           ⟨"pong", none, none⟩])
        ⟨[("alpha", ⟨"/srv/alpha.py", [], [], "python3", false⟩)], [], []⟩ "alpha").fst
      = List.map (specToolEntryAmended "alpha")
          [⟨"ping", some "ping tool", some (Json.obj [("type", Json.str "object")])⟩,
           ⟨"pong", none, none⟩]
    ∧ (get_server_tools true (fun _ => true) (fun _ => SpawnOutcome.ok 1 2)
        (fun _ => Except.ok
          [⟨"ping", some "ping tool", some (Json.obj [("type", Json.str "object")])⟩,
           ⟨"pong", none, none⟩])
        ⟨[("alpha", ⟨"/srv/alpha.py", [], [], "python3", false⟩)], [], []⟩ "alpha").fst.length
      = 2) :=
  ⟨c1_snapshot_amended true (fun _ => true) (fun _ => SpawnOutcome.fail "unused")
    (fun _ => Except.ok
      [⟨"ping", some "ping tool", some (Json.obj [("type", Json.str "object")])⟩,
       ⟨"pong", none, none⟩])
    ⟨[("alpha", ⟨"/srv/alpha.py", [], [], "python3", true⟩)], [("alpha", 1)], [("alpha", 1)]⟩
    "alpha"
    [⟨"ping", some "ping tool", some (Json.obj [("type", Json.str "object")])⟩,
     ⟨"pong", none, none⟩]
    (Or.inl rfl) rfl,
   c1_snapshot_amended true (fun _ => true) (fun _ => SpawnOutcome.ok 1 2)
    (fun _ => Except.ok
      [⟨"ping", some "ping tool", some (Json.obj [("type", Json.str "object")])⟩,
       ⟨"pong", none, none⟩])
    ⟨[("alpha", ⟨"/srv/alpha.py", [], [], "python3", false⟩)], [], []⟩ "alpha"
    [⟨"ping", some "ping tool", some (Json.obj [("type", Json.str "object")])⟩,
     ⟨"pong", none, none⟩]
    (Or.inr rfl) rfl⟩

/-! ### C7 — call_tool result shapes -/

/-- C7 counterexample: a successful provider response whose content
list is empty.  The claim says the result is the concatenation of all
textual content fragments — the empty concatenation, "" — but the code
falls into the `else` branch and returns `str(result)`, the non-empty
pydantic rendering of the raw response. -/
theorem c7_counterexample :
    call_tool_outcome (CallOutcome.ok ⟨[]⟩) "s" "t" = MCPCallResult.success (pyStr ⟨[]⟩)
    ∧ call_tool_outcome (CallOutcome.ok ⟨[]⟩) "s" "t"
        ≠ MCPCallResult.success (extractText ([] : List Fragment))
    ∧ pyStr ⟨[]⟩ ≠ "" := by
  refine ⟨rfl, ?_, ?_⟩ <;> decide

/-- C7 (amended): for every tool call issued through the session layer
on a connected server — a successful response with at least one content
fragment yields success with the in-order concatenation of its textual
fragments; a successful response with no content fragments yields
success with the string rendering of the raw response object; a
provider-side exception yields the plain error result carrying its
message; and an exception whose text mentions the framework-only
`background_tasks` dependency yields the actionable named error that
names the tool and suggests using an alternative. -/
theorem c7_call_tool_amended (out : CallOutcome) (server tool : String) :
    (∀ r : CallResultRaw, out = CallOutcome.ok r → r.content ≠ [] →
        call_tool_outcome out server tool = MCPCallResult.success (extractText r.content))
    ∧ (∀ r : CallResultRaw, out = CallOutcome.ok r → r.content = [] →
        call_tool_outcome out server tool = MCPCallResult.success (pyStr r))
    ∧ (∀ m : String, out = CallOutcome.exc m → hasSubStr m "background_tasks" = false →
        call_tool_outcome out server tool = MCPCallResult.error m)
    ∧ (∀ m : String, out = CallOutcome.exc m → hasSubStr m "background_tasks" = true →
        call_tool_outcome out server tool
          = MCPCallResult.errorNamed
              ("Tool " ++ tool ++ " requires FastAPI dependencies that are not available via MCP. Please use an alternative tool.")
              tool server) := by
  refine ⟨?_, ?_, ?_, ?_⟩
  · intro r h hc
    subst h
    simp [call_tool_outcome, hc]
  · intro r h hc
    subst h
    simp [call_tool_outcome, hc]
  · intro m h hb
    subst h
    simp [call_tool_outcome, hb]
  · intro m h hb
    subst h
    simp [call_tool_outcome, hb]

/-- C7 witness: the four cases on concrete inputs — mixed fragments
concatenated in order, an empty response, a plain provider error, and
the background_tasks limitation. -/
theorem c7_call_tool_amended_witness :
    call_tool_outcome
        (CallOutcome.ok ⟨[Fragment.textAttr "pong ", Fragment.other, Fragment.plain "done"]⟩)
        "alpha" "ping"
      = MCPCallResult.success
          (extractText [Fragment.textAttr "pong ", Fragment.other, Fragment.plain "done"])
    ∧ call_tool_outcome (CallOutcome.ok ⟨[]⟩) "alpha" "noop"
        = MCPCallResult.success (pyStr ⟨[]⟩)
    ∧ call_tool_outcome (CallOutcome.exc "redis unreachable") "alpha" "ping"
        = MCPCallResult.error "redis unreachable"
    ∧ call_tool_outcome (CallOutcome.exc "missing background_tasks argument") "alpha" "send"
        = MCPCallResult.errorNamed
            "Tool send requires FastAPI dependencies that are not available via MCP. Please use an alternative tool."
            "send" "alpha" :=
  ⟨(c7_call_tool_amended
      (CallOutcome.ok ⟨[Fragment.textAttr "pong ", Fragment.other, Fragment.plain "done"]⟩)
      "alpha" "ping").1 _ rfl (by decide),
   (c7_call_tool_amended (CallOutcome.ok ⟨[]⟩) "alpha" "noop").2.1 _ rfl rfl,
   (c7_call_tool_amended (CallOutcome.exc "redis unreachable") "alpha" "ping").2.2.1 _ rfl
     (by decide),
   (c7_call_tool_amended (CallOutcome.exc "missing background_tasks argument") "alpha"
      "send").2.2.2 _ rfl (by decide)⟩

/-! ### Concrete fixtures for the dispatcher claims -/

/-- A JSON-parse oracle that accepts everything as the empty object. -/
def jlOk : String → Except String Json := fun _ => Except.ok (Json.obj [])

/-- A JSON-parse oracle that always fails (invalid argument string). -/
def jlBad : String → Except String Json :=
  fun _ => Except.error "Expecting value: line 1 column 1 (char 0)"

/-- A local tool table holding only a tool named "ping". -/
def ltPing : LocalTools := [("ping", fun _ => Except.ok "local pong")]

/-- A local tool whose implementation raises. -/
def ltBoom : LocalTools :=
  [("demo_tool", fun _ => Except.error "unexpected keyword argument")]

/-- A remote-call oracle answering with `server.tool`. -/
def envRemote : String → String → Json → MCPCallResult :=
  fun s t _ => MCPCallResult.success (s ++ "." ++ t)

/-- A second remote-call oracle with different answers. -/
def envRemote2 : String → String → Json → MCPCallResult :=
  fun _ _ _ => MCPCallResult.success "other"

/-! ### C2 — sync/async agreement of the execution bridge -/

/-- C2 counterexample: the same tool call ("alpha_ping", empty
arguments, remote oracle answering "alpha.ping") executed from a
running-loop context whose worker misses the 10-second budget returns
the timeout failure envelope, while the asynchronous path returns the
success envelope — the two call sites do not agree on all inputs. -/
theorem c2_counterexample :
    executeToolSync jlOk [] envRemote CallerCtx.runningLoop (WorkerOutcome.timedOut "")
        ⟨"alpha_ping", "\x7b\x7d"⟩
      = jsonDumpsEnvelope false "MCP tool execution failed: "
    ∧ executeToolSync jlOk [] envRemote CallerCtx.noLoop (WorkerOutcome.timedOut "")
        ⟨"alpha_ping", "\x7b\x7d"⟩
      = jsonDumpsEnvelope true "alpha.ping"
    ∧ executeToolAsync jlOk [] envRemote ⟨"alpha_ping", "\x7b\x7d"⟩
      = jsonDumpsEnvelope true "alpha.ping"
    ∧ executeToolSync jlOk [] envRemote CallerCtx.runningLoop (WorkerOutcome.timedOut "")
        ⟨"alpha_ping", "\x7b\x7d"⟩
      ≠ executeToolSync jlOk [] envRemote CallerCtx.noLoop (WorkerOutcome.timedOut "")
        ⟨"alpha_ping", "\x7b\x7d"⟩
    ∧ executeToolSync jlOk [] envRemote CallerCtx.runningLoop (WorkerOutcome.timedOut "")
        ⟨"alpha_ping", "\x7b\x7d"⟩
      ≠ executeToolAsync jlOk [] envRemote ⟨"alpha_ping", "\x7b\x7d"⟩ := by
  refine ⟨rfl, rfl, rfl, ?_, ?_⟩ <;> decide

/-- C2 (amended): for every tool name, argument string and environment,
the synchronous entry point and the asynchronous entry point produce
the same result envelope — from a no-loop context unconditionally, and
from a running-loop context provided the worker-thread execution
completes within the 10-second wait budget.  (When the budget is
exceeded the synchronous path alone substitutes the structured timeout
failure envelope.) -/
theorem c2_bridge_amended (jl : String → Except String Json) (lt : LocalTools)
    (env : String → String → Json → MCPCallResult) (ctx : CallerCtx) (wo : WorkerOutcome)
    (tc : ToolCall) (h : ctx = CallerCtx.noLoop ∨ wo = WorkerOutcome.completed) :
    executeToolSync jl lt env ctx wo tc = executeToolAsync jl lt env tc := by
  unfold executeToolSync executeToolAsync executeMcpToolSync
  cases hj : jl tc.arguments with
  | error e => rfl
  | ok args =>
    cases hl : List.lookup tc.name lt with
    | some f => cases f args <;> rfl
    | none =>
      by_cases hs : (splitFirstUnderscore tc.name).isSome
      · rcases h with h | h
        · subst h
          simp [hs]
        · subst h
          cases ctx <;> simp [hs]
      · simp [hs]

/-- C2 witness: the amended statement on the concrete "alpha_ping" call
from a running-loop context whose worker completes in time. -/
theorem c2_bridge_amended_witness :
    executeToolSync jlOk [] envRemote CallerCtx.runningLoop WorkerOutcome.completed
        ⟨"alpha_ping", "\x7b\x7d"⟩
      = executeToolAsync jlOk [] envRemote ⟨"alpha_ping", "\x7b\x7d"⟩ :=
  c2_bridge_amended jlOk [] envRemote CallerCtx.runningLoop WorkerOutcome.completed
    ⟨"alpha_ping", "\x7b\x7d"⟩ (Or.inr rfl)

/-! ### C3 — the bridge's timeout handling -/

/-- C3: evaluating the synchronous bridge at a concrete running-loop
call whose worker misses the 10-second budget: the raised
`concurrent.futures.TimeoutError` (whose `str` is empty) is caught by
the surrounding `except` and serialized as the structured failure
envelope — no raw exception reaches the caller.  (The associated claim
is settled as a code bug on liveness grounds: `with
ThreadPoolExecutor()` exits through `shutdown(wait=True)`, which blocks
until the worker actually finishes, so a never-terminating worker still
hangs the caller; this value-level theorem covers the case where the
worker eventually completes.) -/
theorem c3_timeout_envelope :
    executeToolSync jlOk [] envRemote CallerCtx.runningLoop (WorkerOutcome.timedOut "")
        ⟨"alpha_ping", "\x7b\x7d"⟩
      = jsonDumpsEnvelope false "MCP tool execution failed: "
    ∧ jsonDumpsEnvelope false "MCP tool execution failed: "
      = "\x7b\"success\": false, \"error\": \"MCP tool execution failed: \"\x7d" := by
  exact ⟨rfl, rfl⟩

/-! ### C6 — routing priority: exact local name first, then first-separator split -/

/-- C6: the dispatcher checks the requested name, exactly as given,
against the local tool table first: on a local hit the result does not
depend on the remote environment at all (the remote path is never
consulted), and only when no local tool of that exact name exists is
the name split on the first underscore into server name and tool name
and routed to that server's call path. -/
theorem c6_routing (jl : String → Except String Json) (lt : LocalTools)
    (env : String → String → Json → MCPCallResult) (tc : ToolCall) (args : Json)
    (hargs : jl tc.arguments = Except.ok args) :
    ((List.lookup tc.name lt).isSome = true →
        ∀ env2 : String → String → Json → MCPCallResult,
          executeToolAsync jl lt env tc = executeToolAsync jl lt env2 tc)
    ∧ (List.lookup tc.name lt = none →
        ∀ s t : String, splitFirstUnderscore tc.name = some (s, t) →
          executeToolAsync jl lt env tc = wrapMcpResult (env s t args)) := by
  constructor
  · intro hsome env2
    obtain ⟨f, hf⟩ := Option.isSome_iff_exists.mp hsome
    unfold executeToolAsync
    simp only [hargs, hf]
  · intro hnone s t hsplit
    unfold executeToolAsync execute_mcp_tool
    simp [hargs, hnone, hsplit]

/-- C6 witness: the spec's scenario — server "alpha" with remote tool
"ping" and a local tool also named "ping".  The call named "alpha_ping"
is not an exact local match, so it is routed to server "alpha", tool
"ping" (first-underscore split); the call named "ping" is an exact
local match, so its result is independent of the remote environment. -/
theorem c6_routing_witness :
    executeToolAsync jlOk ltPing envRemote ⟨"alpha_ping", "\x7b\x7d"⟩
      = wrapMcpResult (envRemote "alpha" "ping" (Json.obj []))
    ∧ executeToolAsync jlOk ltPing envRemote ⟨"ping", "\x7b\x7d"⟩
      = executeToolAsync jlOk ltPing envRemote2 ⟨"ping", "\x7b\x7d"⟩ :=
  ⟨(c6_routing jlOk ltPing envRemote ⟨"alpha_ping", "\x7b\x7d"⟩ (Json.obj []) rfl).2
      rfl "alpha" "ping" rfl,
   (c6_routing jlOk ltPing envRemote ⟨"ping", "\x7b\x7d"⟩ (Json.obj []) rfl).1
      rfl envRemote2⟩

/-! ### C10 — the executor always returns a serialized envelope -/

/-- C10: both tool executors are total String-valued functions — no
exception escapes to the dispatch loop — and in each problem case they
return the serialized error envelope: an argument string that fails
JSON parsing yields the "Tool execution failed" envelope, a local tool
implementation that raises yields the "Tool execution failed" envelope,
and a name matching no local tool and containing no underscore yields
the "Unknown tool" envelope naming it.  Each conclusion is stated for
the asynchronous executor and for the synchronous executor in every
caller context. -/
theorem c10_executor_envelopes (jl : String → Except String Json) (lt : LocalTools)
    (env : String → String → Json → MCPCallResult) (tc : ToolCall) :
    (∀ e : String, jl tc.arguments = Except.error e →
        executeToolAsync jl lt env tc
          = jsonDumpsEnvelope false ("Tool execution failed: " ++ e)
        ∧ ∀ (ctx : CallerCtx) (wo : WorkerOutcome),
            executeToolSync jl lt env ctx wo tc
              = jsonDumpsEnvelope false ("Tool execution failed: " ++ e))
    ∧ (∀ (args : Json) (f : Json → Except String String) (e : String),
        jl tc.arguments = Except.ok args → List.lookup tc.name lt = some f →
        f args = Except.error e →
        executeToolAsync jl lt env tc
          = jsonDumpsEnvelope false ("Tool execution failed: " ++ e)
        ∧ ∀ (ctx : CallerCtx) (wo : WorkerOutcome),
            executeToolSync jl lt env ctx wo tc
              = jsonDumpsEnvelope false ("Tool execution failed: " ++ e))
    ∧ (∀ args : Json,
        jl tc.arguments = Except.ok args → List.lookup tc.name lt = none →
        splitFirstUnderscore tc.name = none →
        executeToolAsync jl lt env tc
          = jsonDumpsEnvelope false ("Unknown tool: " ++ tc.name)
        ∧ ∀ (ctx : CallerCtx) (wo : WorkerOutcome),
            executeToolSync jl lt env ctx wo tc
              = jsonDumpsEnvelope false ("Unknown tool: " ++ tc.name)) := by
  refine ⟨?_, ?_, ?_⟩
  · intro e he
    constructor
    · unfold executeToolAsync
      simp only [he]
    · intro ctx wo
      unfold executeToolSync
      simp only [he]
  · intro args f e hargs hf hfe
    constructor
    · unfold executeToolAsync
      simp only [hargs, hf, hfe]
    · intro ctx wo
      unfold executeToolSync
      simp only [hargs, hf, hfe]
  · intro args hargs hnone hsplit
    constructor
    · unfold executeToolAsync
      simp [hargs, hnone, hsplit]
    · intro ctx wo
      unfold executeToolSync
      simp [hargs, hnone, hsplit]

/-- C10 witness: the three problem cases on concrete inputs — an
unparsable argument string, the local "demo_tool" raising a
keyword-binding error, and the unknown underscore-free name "mystery" —
for the async executor and for the sync executor in a running-loop
context. -/
theorem c10_executor_envelopes_witness :
    executeToolAsync jlBad [] envRemote ⟨"demo_tool", "not json"⟩
      = jsonDumpsEnvelope false
          "Tool execution failed: Expecting value: line 1 column 1 (char 0)"
    ∧ executeToolAsync jlOk ltBoom envRemote ⟨"demo_tool", "\x7b\x7d"⟩
      = jsonDumpsEnvelope false "Tool execution failed: unexpected keyword argument"
    ∧ executeToolAsync jlOk [] envRemote ⟨"mystery", "\x7b\x7d"⟩
      = jsonDumpsEnvelope false "Unknown tool: mystery"
    ∧ executeToolSync jlOk [] envRemote CallerCtx.runningLoop (WorkerOutcome.timedOut "")
        ⟨"mystery", "\x7b\x7d"⟩
      = jsonDumpsEnvelope false "Unknown tool: mystery" :=
  ⟨((c10_executor_envelopes jlBad [] envRemote ⟨"demo_tool", "not json"⟩).1
      "Expecting value: line 1 column 1 (char 0)" rfl).1,
   ((c10_executor_envelopes jlOk ltBoom envRemote ⟨"demo_tool", "\x7b\x7d"⟩).2.1
      (Json.obj []) (fun _ => Except.error "unexpected keyword argument")
      "unexpected keyword argument" rfl rfl rfl).1,
   ((c10_executor_envelopes jlOk [] envRemote ⟨"mystery", "\x7b\x7d"⟩).2.2
      (Json.obj []) rfl rfl rfl).1,
   ((c10_executor_envelopes jlOk [] envRemote ⟨"mystery", "\x7b\x7d"⟩).2.2
      (Json.obj []) rfl rfl rfl).2 CallerCtx.runningLoop (WorkerOutcome.timedOut "")⟩

end Agent1
